import Mathlib

/-!
Shallow embedding of the crawl-job orchestration core of the repository
(the crawl-start route, the crawl-seed route and the crawl-status SSE
reconciler loop), together with theorems settling the frozen claims.

Modelling conventions:
* The tiered cache and the other key-value stores (`cacheService.get`,
  `mget`, `set`, `getCrawlUrlMap`, `setCrawlUrlMap`, `setCrawlJob`) are
  external collaborators of the routes under test; they are modelled as
  association lists with the lookup and write semantics the spec gives
  for the store contract (section 4.1 and 4.5).  A lookup result of
  `none` corresponds to a JavaScript `null` miss.
* Timestamps (`startedAt`, `completedAt`, `expiresAt`) are not part of
  any claim; `completedAt` and `failedAt` are tracked as booleans
  recording whether the corresponding update set them.
* JavaScript truthiness is reproduced where the source relies on it:
  an absent or empty string cursor is falsy, an empty cached string is
  falsy in `if (content)` checks, and numeric fields use `0` for an
  absent JSON number (matching the `|| 0` defaults in the source).
* Wall-clock time is a virtual clock measured in milliseconds; each
  poll iteration is instantaneous and the clock advances by the sleep
  the source performs between polls.
-/

namespace LlmCodes

/-- Lookup in an association-list store; the newest entry for a key wins
because writes prepend. -/
def assocGet {α : Type} (store : List (String × α)) (k : String) : Option α :=
  (store.find? (fun p => p.1 = k)).map (fun p => p.2)

/-- PROCESSING_CONFIG.MIN_CONTENT_LENGTH from src/constants.ts. -/
def MIN_CONTENT_LENGTH : Nat := 200

/-- PROCESSING_CONFIG.MAX_ALLOWED_URLS from src/constants.ts. -/
def MAX_ALLOWED_URLS : Nat := 2000

/-! ## Crawl start endpoint (POST /api/crawl/start) -/

/-- A crawl job record as created by the start route.  `urlValid` in the
request mirrors the external `isValidDocumentationUrl` check, which the
spec places out of scope. -/
structure CrawlJob where
  url : String
  limit : Nat
  status : String
  totalPages : Nat
  completedPages : Nat
  failedPages : Nat
  creditsUsed : Nat
  crawledUrls : Option (List String)
  deriving DecidableEq, Repr

/-- The request body of the crawl-start route, with the outcome of the
external URL validator attached. -/
structure StartRequest where
  url : String
  urlValid : Bool
  limit : Nat
  force : Bool
  deriving DecidableEq, Repr

/-- The environment the crawl-start route reads: server configuration,
circuit-breaker verdict, URL-manifest store and tiered cache. -/
structure StartEnv where
  apiKeyPresent : Bool
  canRequest : Bool
  manifests : List (String × List String)
  cache : List (String × String)
  deriving DecidableEq, Repr

/-- Possible outcomes of the crawl-start route.  `providerCall` stands
for falling through to the remote Firecrawl call (lines 85-197 of the
route); the claims only need to know that a remote call was issued. -/
inductive StartResult where
  | serverConfigError
  | invalidUrl
  | circuitOpen
  | cacheHit (job : CrawlJob)
  | providerCall (enforcedLimit : Nat)
  deriving DecidableEq, Repr

/-- POST /api/crawl/start from src/app/api/crawl/start/route.ts.
Returns the route outcome, the number of calls issued to the remote
provider, and the number of reads of the URL-manifest store. -/
def crawlStartPOST (env : StartEnv) (req : StartRequest) :
    StartResult × Nat × Nat :=
  if env.apiKeyPresent = false then (.serverConfigError, 0, 0)
  else
    let enforcedLimit := min req.limit MAX_ALLOWED_URLS
    if req.urlValid = false then (.invalidUrl, 0, 0)
    else if env.canRequest = false then (.circuitOpen, 0, 0)
    else if req.force = false then
      match assocGet env.manifests req.url with
      | some cachedUrls =>
        if cachedUrls.length > 0 then
          let sample := cachedUrls.take (min 3 cachedUrls.length)
          if sample.all (fun u => (assocGet env.cache u).isSome) then
            (.cacheHit
              { url := req.url
                limit := enforcedLimit
                status := "cache_hit"
                totalPages := cachedUrls.length
                completedPages := cachedUrls.length
                failedPages := 0
                creditsUsed := 0
                crawledUrls := some cachedUrls }, 0, 1)
          else (.providerCall enforcedLimit, 1, 1)
        else (.providerCall enforcedLimit, 1, 1)
      | none => (.providerCall enforcedLimit, 1, 1)
    else (.providerCall enforcedLimit, 1, 0)

/-! ## Seed endpoint (POST /api/crawl/seed) -/

/-- The request body of the seed route; `pageUrls = none` models a body
whose pageUrls field is missing or not an array. -/
structure SeedRequest where
  url : String
  urlValid : Bool
  pageUrls : Option (List String)
  deriving DecidableEq, Repr

/-- Possible responses of the seed route. -/
inductive SeedResult where
  | badRequest (msg : String)
  | notFound (missingUrls : List String)
  | okResp (stored : Nat) (missing : Nat) (missingUrls : Option (List String))
  deriving DecidableEq, Repr

/-- POST /api/crawl/seed from src/app/api/crawl/seed/route.ts.
Returns the response and the updated URL-manifest store. -/
def crawlSeedPOST (cache : List (String × String))
    (manifests : List (String × List String)) (req : SeedRequest) :
    SeedResult × List (String × List String) :=
  match req.pageUrls with
  | none => (.badRequest "Missing required field: pageUrls (non-empty array)", manifests)
  | some pageUrls =>
    if pageUrls = [] then
      (.badRequest "Missing required field: pageUrls (non-empty array)", manifests)
    else if req.urlValid = false then
      (.badRequest "Invalid URL. Must be from an allowed documentation domain", manifests)
    else
      let cachedUrls := pageUrls.filter (fun u => (assocGet cache u).isSome)
      let missingUrls := pageUrls.filter (fun u => (assocGet cache u).isNone)
      if cachedUrls = [] then (.notFound missingUrls, manifests)
      else
        (.okResp cachedUrls.length missingUrls.length
          (if missingUrls.length > 0 then some missingUrls else none),
         (req.url, cachedUrls) :: manifests)

/-! ## Crawl status stream (GET /api/crawl/[jobId]/status) -/

/-- An SSE message as produced by sendMessage in the status route. -/
inductive Event where
  | statusEv (status : String)
  | progress (progress : Nat) (total : Nat) (creditsUsed : Nat)
  | urlComplete (url : String) (content : String) (cached : Bool)
  | errorEv (error : String)
  | complete (total : Nat) (creditsUsed : Nat)
  deriving DecidableEq, Repr

/-- One page record of a Firecrawl status response: metadata.sourceURL
and the markdown body, both possibly absent. -/
structure CrawlPage where
  sourceURL : Option String
  markdown : Option String
  deriving DecidableEq, Repr

/-- The JSON body of a successful Firecrawl status response.  Numeric
fields use 0 for an absent number, matching the `|| 0` defaults the
route applies wherever they are read. -/
structure FirecrawlData where
  status : String
  completed : Nat
  total : Nat
  creditsUsed : Nat
  next : Option String
  dataPages : Option (List CrawlPage)
  deriving DecidableEq, Repr

/-- One poll outcome: a 2xx body, a non-2xx HTTP status, or a thrown
network error. -/
inductive PollResponse where
  | ok (d : FirecrawlData)
  | httpError (status : Nat)
  | netError (msg : String)
  deriving DecidableEq, Repr

/-- The job metadata record in the job store, restricted to the fields
the status route writes.  `completedAt` and `failedAt` record whether
the corresponding timestamp was set. -/
structure StoredJob where
  status : String
  totalPages : Nat
  completedPages : Nat
  creditsUsed : Nat
  lastPageNumber : Nat
  completedAt : Bool
  failedAt : Bool
  deriving DecidableEq, Repr

/-- The mutable state of one status-stream connection: the locals of
the route plus the observable effects (emitted events, cache writes,
job-store writes, manifest write, result-page writes).  `now` is the
virtual clock in ms with the stream opened at 0; `pollCount` counts the
polls issued to the remote provider. -/
structure LoopState where
  now : Nat
  pollCount : Nat
  isComplete : Bool
  lastPageNumber : Nat
  consecutiveErrors : Nat
  lastProgressUpdate : Nat
  lastCompletedCount : Nat
  sentUrls : List String
  events : List Event
  cache : List (String × String)
  stored : StoredJob
  manifestWrite : Option (List String)
  resultPages : List (Nat × List CrawlPage)
  deriving DecidableEq, Repr

/-- pollInterval in the status route. -/
def pollIntervalMs : Nat := 2000

/-- maxPollingTime in the status route (8 minutes). -/
def maxPollingTimeMs : Nat := 480000

/-- maxConsecutiveErrors in the status route. -/
def maxConsecutiveErrorCount : Nat := 5

/-- maxStallTime in the status route (60 seconds without progress). -/
def maxStallTimeMs : Nat := 60000

/-- absoluteMaxStallTime in the status route (2 minutes). -/
def absoluteMaxStallTimeMs : Nat := 120000

/-- JavaScript truthiness of the `next` cursor: absent or empty string
is falsy. -/
def nextTruthy : Option String → Bool
  | none => false
  | some s => decide (s ≠ "")

/-- The completion predicates of lines 197-221 of the status route,
evaluated after the progress bookkeeping of the same iteration.
Ratio comparisons `completed / total ≥ r` are expressed by
cross-multiplication over the naturals; the slow-progress rate test
`(completed - lastCompletedCount) / timeSince < 1 / 60000` is expressed
by cross-multiplication over the integers, with the `: 0` fallback of
the source when its truthiness guard fails. -/
def completionCheck (now lastProgressUpdate lastCompletedCount : Nat)
    (d : FirecrawlData) : Bool :=
  let timeSinceLastProgress := now - lastProgressUpdate
  let hasStalled := decide (timeSinceLastProgress > maxStallTimeMs)
  let hasAbsolutelyStalled := decide (timeSinceLastProgress > absoluteMaxStallTimeMs)
  let isNearComplete := decide (d.completed ≠ 0) && decide (d.total ≠ 0) &&
    decide (20 * d.completed ≥ 19 * d.total)
  let isMostlyComplete := decide (d.completed ≠ 0) && decide (d.total ≠ 0) &&
    decide (5 * d.completed ≥ 4 * d.total)
  let halfComplete := decide (d.completed ≠ 0) && decide (d.total ≠ 0) &&
    decide (2 * d.completed ≥ d.total)
  let rateBelowFloor :=
    if d.completed ≠ 0 ∧ timeSinceLastProgress > 0 then
      decide (60000 * ((d.completed : Int) - (lastCompletedCount : Int)) <
        (timeSinceLastProgress : Int))
    else true
  let isMakingSlowProgress := rateBelowFloor && decide (d.completed > 10)
  let hasExceededMaxTime := decide (now > maxPollingTimeMs)
  decide (d.status = "completed") ||
  (decide (d.status = "scraping") && !(nextTruthy d.next) &&
    decide (d.completed = d.total)) ||
  (hasStalled && isNearComplete && !(nextTruthy d.next)) ||
  (hasStalled && isMostlyComplete && isMakingSlowProgress) ||
  (hasAbsolutelyStalled && halfComplete) ||
  hasExceededMaxTime

/-- The per-page loop of lines 152-187: deduplicate by sourceURL, serve
from cache when the cached content is truthy, otherwise cache content
that meets the minimum length and emit it as uncached. -/
def processPages (pages : List CrawlPage) (sent : List String)
    (cache : List (String × String)) (events : List Event) :
    List String × List (String × String) × List Event :=
  match pages with
  | [] => (sent, cache, events)
  | page :: rest =>
    match page.sourceURL with
    | some u =>
      if u ≠ "" ∧ u ∉ sent then
        let content := page.markdown.getD ""
        let cachedContent := (assocGet cache u).getD ""
        if cachedContent ≠ "" then
          processPages rest (sent ++ [u]) cache
            (events ++ [.urlComplete u cachedContent true])
        else
          let cache' := if content.length ≥ MIN_CONTENT_LENGTH then
            (u, content) :: cache else cache
          processPages rest (sent ++ [u]) cache'
            (events ++ [.urlComplete u content false])
      else processPages rest sent cache events
    | none => processPages rest sent cache events

/-- HTTP statuses the route treats as transient gateway errors. -/
def gatewayStatuses : List Nat := [502, 503, 504]

/-- One iteration of the status-route poll loop (lines 91-338), for a
given poll outcome.  The iteration increments the poll counter, then
follows the source: on a 2xx body it resets the error counter, tracks
progress, merges the job-store metadata, emits status and progress
events, processes new pages, and evaluates the completion predicates
and the explicit failed status; on a gateway-class HTTP error it counts
the error silently until the threshold; on another HTTP error it emits
an error event and keeps going; on a thrown network error it counts the
error and emits only at the threshold. -/
def processPoll (resp : PollResponse) (st0 : LoopState) : LoopState :=
  let st : LoopState := { st0 with pollCount := st0.pollCount + 1 }
  match resp with
  | .ok d =>
    let s1 : LoopState := { st with consecutiveErrors := 0 }
    let s2 : LoopState :=
      if d.completed ≠ 0 ∧ d.completed > s1.lastCompletedCount then
        { s1 with lastProgressUpdate := s1.now, lastCompletedCount := d.completed }
      else s1
    let s3 : LoopState := { s2 with
      stored := { s2.stored with
        status := d.status
        totalPages := d.total
        completedPages := d.completed
        creditsUsed := d.creditsUsed
        lastPageNumber := if d.dataPages.isSome then s2.lastPageNumber + 1
          else s2.lastPageNumber }
      events := s2.events ++
        [.statusEv d.status, .progress d.completed d.total d.creditsUsed] }
    let s4 : LoopState :=
      match d.dataPages with
      | some pages =>
        let out := processPages pages s3.sentUrls s3.cache s3.events
        { s3 with resultPages := s3.resultPages ++ [(s3.lastPageNumber, pages)],
                  sentUrls := out.1, cache := out.2.1, events := out.2.2,
                  lastPageNumber := s3.lastPageNumber + 1 }
      | none => s3
    if completionCheck s4.now s4.lastProgressUpdate s4.lastCompletedCount d then
      let s5 : LoopState := { s4 with
        isComplete := true
        stored := { s4.stored with status := "completed", completedAt := true } }
      let s6 : LoopState :=
        if s5.sentUrls.length > 0 then
          { s5 with manifestWrite := some s5.sentUrls }
        else s5
      { s6 with events := s6.events ++ [.complete d.total d.creditsUsed] }
    else if d.status = "failed" then
      { s4 with
        isComplete := true
        stored := { s4.stored with status := "failed", failedAt := true }
        events := s4.events ++ [.errorEv "Crawl job failed"] }
    else s4
  | .httpError code =>
    if code ∈ gatewayStatuses then
      let s1 : LoopState := { st with consecutiveErrors := st.consecutiveErrors + 1 }
      if s1.consecutiveErrors ≥ maxConsecutiveErrorCount then
        { s1 with
          events := s1.events ++ [.errorEv
            "Too many consecutive gateway errors. The service may be temporarily unavailable."]
          isComplete := true }
      else s1
    else
      { st with events := st.events ++ [.errorEv
          ("Failed to get crawl status: " ++ toString code)] }
  | .netError msg =>
    let s1 : LoopState := { st with consecutiveErrors := st.consecutiveErrors + 1 }
    if s1.consecutiveErrors ≥ maxConsecutiveErrorCount then
      { s1 with
        events := s1.events ++ [.errorEv ("Too many consecutive errors. " ++ msg)]
        isComplete := true }
    else s1

/-- The sleep at the bottom of the loop (lines 340-349): exponential
backoff capped at 30s while consecutive errors are nonzero, otherwise
the fixed poll interval; skipped once the stream is complete. -/
def stepDelay (st : LoopState) : LoopState :=
  if st.isComplete then st
  else
    let delay := if st.consecutiveErrors > 0 then
        min (pollIntervalMs * 2 ^ (st.consecutiveErrors - 1)) 30000
      else pollIntervalMs
    { st with now := st.now + delay }

/-- The while loop of line 90: run while the stream is not complete and
the virtual clock is below the absolute polling ceiling.  Recursion is
by fuel; every claim supplies enough fuel for the loop to reach its
exit condition. -/
def runLoop (responses : Nat → PollResponse) : Nat → LoopState → LoopState
  | 0, st => st
  | fuel + 1, st =>
    if st.isComplete = false ∧ st.now < maxPollingTimeMs then
      runLoop responses fuel (stepDelay (processPoll (responses st.pollCount) st))
    else st

/-- Lines 352-360: after the loop, emit the timeout error when the loop
exited because of the polling ceiling rather than completion. -/
def finishStream (st : LoopState) : LoopState :=
  if st.isComplete then st
  else { st with events := st.events ++ [.errorEv "Crawl job timed out after 8 minutes"] }

/-- The events of the cache fast path (lines 74-88): one url_complete
per crawled URL whose cached content is truthy, then a complete event
with zero credits and the full crawled-URL count. -/
def fastPathEvents (cache : List (String × String)) (urls : List String) :
    List Event :=
  (urls.filterMap (fun u =>
    let content := (assocGet cache u).getD ""
    if content ≠ "" then some (Event.urlComplete u content true) else none)) ++
  [Event.complete urls.length 0]

/-- The job metadata the stream reads at start. -/
structure StreamJobMeta where
  status : String
  crawledUrls : Option (List String)
  deriving DecidableEq, Repr

/-- The initial connection state for a freshly opened stream. -/
def initLoopState (jobStatus : String) (cache : List (String × String)) :
    LoopState :=
  { now := 0
    pollCount := 0
    isComplete := false
    lastPageNumber := 0
    consecutiveErrors := 0
    lastProgressUpdate := 0
    lastCompletedCount := 0
    sentUrls := []
    events := []
    cache := cache
    stored := { status := jobStatus, totalPages := 0, completedPages := 0,
                creditsUsed := 0, lastPageNumber := 0,
                completedAt := false, failedAt := false }
    manifestWrite := none
    resultPages := [] }

/-- GET /api/crawl/[jobId]/status, given the job metadata, the cache
contents at stream start, and the sequence of poll outcomes the remote
provider would return (the k-th poll receives `responses k`).  A
cache_hit job with a truthy crawledUrls list takes the fast path and
never polls; otherwise the poll loop runs to completion or to the
ceiling, after which the timeout error is appended when needed. -/
def crawlStatusStream (jobMeta : StreamJobMeta)
    (cache : List (String × String)) (responses : Nat → PollResponse)
    (fuel : Nat) : LoopState :=
  let st0 := initLoopState jobMeta.status cache
  match jobMeta.crawledUrls with
  | some urls =>
    if jobMeta.status = "cache_hit" then
      { st0 with events := fastPathEvents cache urls, isComplete := true }
    else finishStream (runLoop responses fuel st0)
  | none => finishStream (runLoop responses fuel st0)

/-! ## Synthetic inputs and run invariants used by the claim theorems -/

/-- A synthetic successful poll body with a fixed status, page counts
and credit count, no pending cursor and no data batch; used to model a
provider whose reported progress has stopped changing. -/
def constData (s : String) (c tt cu : Nat) : FirecrawlData :=
  { status := s, completed := c, total := tt, creditsUsed := cu,
    next := none, dataPages := none }

/-- The connection state after j polls of a run that received
`constData s c tt cu` on every poll, with progress last recorded at
time 0 and `evs` the events emitted so far. -/
def stalledMid (s : String) (c tt cu : Nat)
    (cache : List (String × String)) (j : Nat) (evs : List Event) : LoopState :=
  { now := pollIntervalMs * j
    pollCount := j
    isComplete := false
    lastPageNumber := 0
    consecutiveErrors := 0
    lastProgressUpdate := 0
    lastCompletedCount := c
    sentUrls := []
    events := evs
    cache := cache
    stored := { status := s, totalPages := tt, completedPages := c,
                creditsUsed := cu, lastPageNumber := 0,
                completedAt := false, failedAt := false }
    manifestWrite := none
    resultPages := [] }

/-- Poll outcomes that never reach any completion predicate: every poll
succeeds with a body reporting zero completed pages, a truthy pending
cursor and a non-terminal status.  Zero completed pages keeps every
ratio-based stall predicate off, the truthy cursor keeps the
no-next-page predicates off, and the status keeps the explicit
completed and failed transitions off. -/
def NeverCompleting (responses : Nat → PollResponse) : Prop :=
  ∀ k, ∃ d, responses k = .ok d ∧ d.completed = 0 ∧ nextTruthy d.next = true ∧
    d.status ≠ "completed" ∧ d.status ≠ "failed"

/-- Invariant of a poll loop fed by never-completing responses: the
stream is live, the error counter is zero, no progress has been
recorded, and the virtual clock is the poll count times the poll
interval, still within the ceiling. -/
def TimeoutInv (st : LoopState) : Prop :=
  st.isComplete = false ∧ st.consecutiveErrors = 0 ∧
  st.lastProgressUpdate = 0 ∧ st.lastCompletedCount = 0 ∧
  st.now = pollIntervalMs * st.pollCount ∧ st.now ≤ maxPollingTimeMs

/-- Crawl-start environment of the C1 counterexample: a configured
server whose circuit breaker is open, with a warm two-URL manifest. -/
def envC1 : StartEnv :=
  { apiKeyPresent := true
    canRequest := false
    manifests := [("https://docs.example.com/",
      ["https://docs.example.com/a", "https://docs.example.com/b"])]
    cache := [("https://docs.example.com/a", "page a"),
              ("https://docs.example.com/b", "page b")] }

/-- Crawl-start request of the C1 counterexample. -/
def reqC1 : StartRequest :=
  { url := "https://docs.example.com/", urlValid := true, limit := 10, force := false }

/-- Crawl-start environment of the C6 counterexample: open breaker,
warm one-URL manifest. -/
def envC6 : StartEnv :=
  { apiKeyPresent := true
    canRequest := false
    manifests := [("https://developer.apple.com/documentation/",
      ["https://developer.apple.com/documentation/swiftui"])]
    cache := [("https://developer.apple.com/documentation/swiftui", "swiftui docs")] }

/-- Crawl-start request of the C6 counterexample. -/
def reqC6 : StartRequest :=
  { url := "https://developer.apple.com/documentation/", urlValid := true,
    limit := 50, force := false }

/-- Job metadata of the C3 counterexample: a live crawling job. -/
def jobMetaC3 : StreamJobMeta := { status := "crawling", crawledUrls := none }

/-- Poll outcomes of the C3 counterexample: the first poll reports the
crawl completed with a single page whose markdown is below the minimum
caching length. -/
def responsesC3 : Nat → PollResponse := fun _ =>
  .ok { status := "completed", completed := 1, total := 1, creditsUsed := 1,
        next := none,
        dataPages := some [{ sourceURL := some "https://docs.example.com/tiny",
                             markdown := some "short" }] }

/-- Job metadata of the C7 counterexample: a live crawling job. -/
def jobMetaC7 : StreamJobMeta := { status := "crawling", crawledUrls := none }

/-- Poll outcomes of the C7 counterexample: every poll is a 502. -/
def responsesC7 : Nat → PollResponse := fun _ => .httpError 502

/-- Never-completing poll body of the C2 witness: zero completed pages
out of 100, status scraping, a pending cursor. -/
def dataC2w : FirecrawlData :=
  { status := "scraping"
    completed := 0
    total := 100
    creditsUsed := 3
    next := some "https://api.firecrawl.dev/v1/crawl/x?skip=1"
    dataPages := none }

/-- Poll outcomes of the C2 witness: the constant never-completing
body. -/
def responsesC2w : Nat → PollResponse := fun _ => .ok dataC2w

/-- Job metadata of the C2 and C5 witnesses: a live crawling job. -/
def jobMetaCrawling : StreamJobMeta := { status := "crawling", crawledUrls := none }

/-- Poll outcomes of the C5 witness: a constant scraping body stuck at
96 of 100 completed pages with no pending cursor. -/
def responsesC5w : Nat → PollResponse := fun _ => .ok (constData "scraping" 96 100 12)

/-- Job metadata of the C8 counterexample: a cache_hit job with two
crawled URLs. -/
def jobMetaC8 : StreamJobMeta :=
  { status := "cache_hit",
    crawledUrls := some ["https://docs.example.com/a", "https://docs.example.com/b"] }

/-- Cache of the C8 counterexample: only the first crawled URL is still
present. -/
def cacheC8 : List (String × String) := [("https://docs.example.com/a", "content-a")]

/-- Poll outcomes of the C8 counterexample (never reached). -/
def responsesC8 : Nat → PollResponse := fun _ => .httpError 500

/-! ## Theorems -/

/-- C9: for a seed request with a valid documentation URL, a non-empty
candidate list, and at least one cache-verified candidate, the endpoint
stores a manifest containing exactly the cache-verified subset of the
candidates (every stored URL is cache-verified and no unverified
candidate is stored), and the response reports the count of stored
URLs, the count of missing URLs, and the list of missing URLs whenever
it is non-empty. -/
theorem claim_C9 (cache : List (String × String))
    (manifests : List (String × List String)) (req : SeedRequest)
    (ps : List String)
    (hv : req.urlValid = true) (hp : req.pageUrls = some ps) (hps : ps ≠ [])
    (hc : ps.filter (fun u => (assocGet cache u).isSome) ≠ []) :
    crawlSeedPOST cache manifests req =
      (.okResp (ps.filter (fun u => (assocGet cache u).isSome)).length
        (ps.filter (fun u => (assocGet cache u).isNone)).length
        (if (ps.filter (fun u => (assocGet cache u).isNone)).length > 0 then
          some (ps.filter (fun u => (assocGet cache u).isNone)) else none),
       (req.url, ps.filter (fun u => (assocGet cache u).isSome)) :: manifests) ∧
    (∀ u ∈ ps.filter (fun u => (assocGet cache u).isSome),
      (assocGet cache u).isSome = true) ∧
    (∀ u ∈ ps, assocGet cache u = none →
      u ∉ ps.filter (fun u => (assocGet cache u).isSome)) := by
  refine ⟨?_, ?_, ?_⟩
  · unfold crawlSeedPOST
    rw [hp]
    simp [hps, hv, hc]
  · intro u hu
    exact (List.mem_filter.mp hu).2
  · intro u _ hnone hmem
    have := (List.mem_filter.mp hmem).2
    rw [hnone] at this
    simp at this

/-- C9 witness: a concrete seed request with one cached and one missing
candidate stores exactly the cached one and reports the missing one. -/
theorem claim_C9_witness :
    crawlSeedPOST [("https://docs.example.com/a", "content-a")] []
      { url := "https://docs.example.com/", urlValid := true,
        pageUrls := some ["https://docs.example.com/a", "https://docs.example.com/b"] } =
      (.okResp 1 1 (some ["https://docs.example.com/b"]),
       [("https://docs.example.com/", ["https://docs.example.com/a"])]) := by
  have h := claim_C9 [("https://docs.example.com/a", "content-a")] []
    { url := "https://docs.example.com/", urlValid := true,
      pageUrls := some ["https://docs.example.com/a", "https://docs.example.com/b"] }
    ["https://docs.example.com/a", "https://docs.example.com/b"]
    (by decide) (by decide) (by decide) (by decide)
  exact h.1.trans (by decide)

/-- C10: for a seed request with a valid documentation URL and a
non-empty candidate list none of which is cached, the endpoint returns
the not-found error listing every candidate as missing and leaves the
manifest store unchanged. -/
theorem claim_C10 (cache : List (String × String))
    (manifests : List (String × List String)) (req : SeedRequest)
    (ps : List String)
    (hv : req.urlValid = true) (hp : req.pageUrls = some ps) (hps : ps ≠ [])
    (hmiss : ∀ u ∈ ps, assocGet cache u = none) :
    crawlSeedPOST cache manifests req = (.notFound ps, manifests) := by
  have h1 : ps.filter (fun u => (assocGet cache u).isSome) = [] := by
    rw [List.filter_eq_nil_iff]
    intro u hu
    simp [hmiss u hu]
  have h2 : ps.filter (fun u => (assocGet cache u).isNone) = ps := by
    rw [List.filter_eq_self]
    intro u hu
    simp [hmiss u hu]
  unfold crawlSeedPOST
  rw [hp]
  simp [hps, hv, h1, h2]

/-- C10 witness: a concrete seed request whose single candidate is not
cached returns 404 listing it, and the previously stored manifest for
the same start URL is left in the store untouched. -/
theorem claim_C10_witness :
    crawlSeedPOST [] [("https://docs.example.com/", ["https://docs.example.com/old"])]
      { url := "https://docs.example.com/", urlValid := true,
        pageUrls := some ["https://docs.example.com/a"] } =
      (.notFound ["https://docs.example.com/a"],
       [("https://docs.example.com/", ["https://docs.example.com/old"])]) :=
  claim_C10 [] [("https://docs.example.com/", ["https://docs.example.com/old"])]
    { url := "https://docs.example.com/", urlValid := true,
      pageUrls := some ["https://docs.example.com/a"] }
    ["https://docs.example.com/a"] (by decide) (by decide) (by decide)
    (by decide)

/-- C1 counterexample: a crawl-start request with a valid documentation
URL, force unset, an existing manifest all of whose sampled URLs are
cached — yet the endpoint does not return a cache_hit job, because the
circuit breaker is open and is checked before the manifest: the route
fails with the 503 circuit-open response. -/
theorem claim_C1_counterexample :
    (reqC1.urlValid = true ∧ reqC1.force = false ∧
     assocGet envC1.manifests reqC1.url =
       some ["https://docs.example.com/a", "https://docs.example.com/b"] ∧
     ((["https://docs.example.com/a", "https://docs.example.com/b"] : List String).take
        (min 3 2)).all (fun u => (assocGet envC1.cache u).isSome) = true) ∧
    ∀ j : CrawlJob, (crawlStartPOST envC1 reqC1).1 ≠ StartResult.cacheHit j := by
  refine ⟨by decide, ?_⟩
  intro j h
  rw [show (crawlStartPOST envC1 reqC1).1 = StartResult.circuitOpen from by decide] at h
  exact StartResult.noConfusion h

/-- C1 (amended): for every crawl-start request with a valid
documentation URL and force not set, on a server configured with a
provider API key and whose circuit breaker currently permits requests,
if a URL manifest exists for the start URL and every sampled manifest
URL (the first min(3, length) entries) is still present in the cache,
then the endpoint issues zero calls to the remote provider and returns
success with a newly created job whose status is cache_hit, whose
creditsUsed is 0, and whose crawledUrls equals the full manifest
list. -/
theorem claim_C1_amended (env : StartEnv) (req : StartRequest)
    (urls : List String)
    (hkey : env.apiKeyPresent = true) (hbreaker : env.canRequest = true)
    (hv : req.urlValid = true) (hf : req.force = false)
    (hm : assocGet env.manifests req.url = some urls) (hne : urls ≠ [])
    (hall : (urls.take (min 3 urls.length)).all
      (fun u => (assocGet env.cache u).isSome) = true) :
    crawlStartPOST env req =
      (.cacheHit
        { url := req.url
          limit := min req.limit MAX_ALLOWED_URLS
          status := "cache_hit"
          totalPages := urls.length
          completedPages := urls.length
          failedPages := 0
          creditsUsed := 0
          crawledUrls := some urls }, 0, 1) := by
  have hlen : urls.length > 0 := List.length_pos.mpr hne
  unfold crawlStartPOST
  rw [hkey, hv, hbreaker, hf]
  simp [hm, hlen, hall]

/-- C1 amended witness: a configured server with a closed breaker and a
warm one-URL manifest returns the synthetic cache_hit job with zero
provider calls. -/
theorem claim_C1_amended_witness :
    crawlStartPOST
      { apiKeyPresent := true, canRequest := true,
        manifests := [("https://docs.example.com/", ["https://docs.example.com/a"])],
        cache := [("https://docs.example.com/a", "page a")] }
      { url := "https://docs.example.com/", urlValid := true, limit := 10, force := false } =
      (.cacheHit
        { url := "https://docs.example.com/"
          limit := 10
          status := "cache_hit"
          totalPages := 1
          completedPages := 1
          failedPages := 0
          creditsUsed := 0
          crawledUrls := some ["https://docs.example.com/a"] }, 0, 1) := by
  have h := claim_C1_amended
    { apiKeyPresent := true, canRequest := true,
      manifests := [("https://docs.example.com/", ["https://docs.example.com/a"])],
      cache := [("https://docs.example.com/a", "page a")] }
    { url := "https://docs.example.com/", urlValid := true, limit := 10, force := false }
    ["https://docs.example.com/a"]
    rfl rfl rfl rfl (by decide) (by decide) (by decide)
  exact h.trans (by decide)

/-- C6 counterexample: a crawl-start request whose manifest is warm
(the sampled URL is cached) does not result in a cache_hit job when the
circuit breaker is open: the route answers 503 and performs zero reads
of the URL-manifest store, so the manifest store is not consulted
before the breaker gates the request. -/
theorem claim_C6_counterexample :
    (reqC6.urlValid = true ∧ reqC6.force = false ∧
     assocGet envC6.manifests reqC6.url =
       some ["https://developer.apple.com/documentation/swiftui"] ∧
     ((["https://developer.apple.com/documentation/swiftui"] : List String).take
        (min 3 1)).all (fun u => (assocGet envC6.cache u).isSome) = true) ∧
    (crawlStartPOST envC6 reqC6).2.2 = 0 ∧
    ∀ j : CrawlJob, (crawlStartPOST envC6 reqC6).1 ≠ StartResult.cacheHit j := by
  refine ⟨by decide, by decide, ?_⟩
  intro j h
  rw [show (crawlStartPOST envC6 reqC6).1 = StartResult.circuitOpen from by decide] at h
  exact StartResult.noConfusion h

/-- C6 (amended): the circuit breaker is consulted before the URL
manifest store: when the breaker rejects a request the route fails fast
with the 503 circuit-open response, performing zero manifest reads and
zero provider calls even if the manifest is warm; only when the breaker
permits the request does a warm manifest (all sampled URLs cached)
yield a synthetic cache_hit job with zero provider calls. -/
theorem claim_C6_amended :
    (∀ (env : StartEnv) (req : StartRequest),
      env.apiKeyPresent = true → req.urlValid = true → env.canRequest = false →
      crawlStartPOST env req = (.circuitOpen, 0, 0)) ∧
    (∀ (env : StartEnv) (req : StartRequest) (urls : List String),
      env.apiKeyPresent = true → req.urlValid = true → env.canRequest = true →
      req.force = false → assocGet env.manifests req.url = some urls → urls ≠ [] →
      (urls.take (min 3 urls.length)).all (fun u => (assocGet env.cache u).isSome) = true →
      (crawlStartPOST env req).2.1 = 0 ∧
      ∃ j : CrawlJob, (crawlStartPOST env req).1 = .cacheHit j ∧
        j.status = "cache_hit" ∧ j.creditsUsed = 0 ∧ j.crawledUrls = some urls) := by
  constructor
  · intro env req hkey hv hbreaker
    unfold crawlStartPOST
    rw [hkey, hv, hbreaker]
    simp
  · intro env req urls hkey hv hbreaker hf hm hne hall
    have hlen : urls.length > 0 := List.length_pos.mpr hne
    unfold crawlStartPOST
    rw [hkey, hv, hbreaker, hf]
    simp [hm, hlen, hall]

/-- C6 amended witness: both conjuncts of the amended claim at concrete
inputs — an open breaker yields the 503 response without reading the
manifest store, and a closed breaker with a warm manifest yields a
cache_hit job with zero provider calls. -/
theorem claim_C6_amended_witness :
    (crawlStartPOST envC6 reqC6 = (.circuitOpen, 0, 0)) ∧
    ((crawlStartPOST { envC6 with canRequest := true } reqC6).2.1 = 0 ∧
      ∃ j : CrawlJob,
        (crawlStartPOST { envC6 with canRequest := true } reqC6).1 = .cacheHit j ∧
        j.status = "cache_hit" ∧ j.creditsUsed = 0 ∧
        j.crawledUrls = some ["https://developer.apple.com/documentation/swiftui"]) :=
  ⟨claim_C6_amended.1 envC6 reqC6 rfl rfl rfl,
   claim_C6_amended.2 { envC6 with canRequest := true } reqC6
     ["https://developer.apple.com/documentation/swiftui"]
     rfl rfl rfl rfl (by decide) (by decide) (by decide)⟩

/-- C4: while polling a live job, a gateway-class error response (502,
503 or 504) increments the consecutive-error counter and emits no
client-visible event as long as the counter stays below the threshold
of 5; when the incremented counter reaches the threshold the stream
terminates with an explanatory error event; a non-gateway error
response immediately emits a client-visible error event while the
stream stays live (the counter, which is below the threshold whenever
a response is processed, is left unchanged), so polling continues. -/
theorem claim_C4 (st : LoopState) (code : Nat)
    (hlive : st.isComplete = false) :
    ((code ∈ gatewayStatuses → st.consecutiveErrors + 1 < maxConsecutiveErrorCount →
      processPoll (.httpError code) st =
        { st with
            pollCount := st.pollCount + 1
            consecutiveErrors := st.consecutiveErrors + 1 } ∧
      (processPoll (.httpError code) st).isComplete = false ∧
      (processPoll (.httpError code) st).events = st.events) ∧
     (code ∈ gatewayStatuses → st.consecutiveErrors + 1 ≥ maxConsecutiveErrorCount →
      processPoll (.httpError code) st =
        { st with
            pollCount := st.pollCount + 1
            consecutiveErrors := st.consecutiveErrors + 1
            events := st.events ++ [.errorEv
              "Too many consecutive gateway errors. The service may be temporarily unavailable."]
            isComplete := true }) ∧
     (code ∉ gatewayStatuses →
      processPoll (.httpError code) st =
        { st with
            pollCount := st.pollCount + 1
            events := st.events ++ [.errorEv
              ("Failed to get crawl status: " ++ toString code)] } ∧
      (processPoll (.httpError code) st).isComplete = false ∧
      (processPoll (.httpError code) st).consecutiveErrors = st.consecutiveErrors)) := by
  refine ⟨?_, ?_, ?_⟩
  · intro hgw hbelow
    have heq : processPoll (.httpError code) st =
        { st with pollCount := st.pollCount + 1,
                  consecutiveErrors := st.consecutiveErrors + 1 } := by
      simp only [processPoll]
      rw [if_pos hgw, if_neg (by omega)]
    exact ⟨heq, by rw [heq]; exact hlive, by rw [heq]⟩
  · intro hgw hreach
    simp only [processPoll]
    rw [if_pos hgw, if_pos hreach]
  · intro hgw
    have heq : processPoll (.httpError code) st =
        { st with pollCount := st.pollCount + 1,
                  events := st.events ++ [.errorEv
                    ("Failed to get crawl status: " ++ toString code)] } := by
      simp only [processPoll]
      rw [if_neg hgw]
    exact ⟨heq, by rw [heq]; exact hlive, by rw [heq]⟩

/-- C4 witness: the three branches at concrete states — a 502 with no
prior errors is counted silently and the stream stays live; a 502 as
the fifth consecutive error terminates the stream with the explanatory
event; a 500 immediately emits an error event and the stream stays
live with the counter untouched. -/
theorem claim_C4_witness :
    (processPoll (.httpError 502) (initLoopState "crawling" []) =
        { initLoopState "crawling" [] with
            pollCount := 1
            consecutiveErrors := 1 } ∧
      (processPoll (.httpError 502) (initLoopState "crawling" [])).isComplete = false ∧
      (processPoll (.httpError 502) (initLoopState "crawling" [])).events = []) ∧
    (processPoll (.httpError 502) { initLoopState "crawling" [] with consecutiveErrors := 4 } =
        { initLoopState "crawling" [] with
            pollCount := 1
            consecutiveErrors := 5
            events := [.errorEv
              "Too many consecutive gateway errors. The service may be temporarily unavailable."]
            isComplete := true }) ∧
    (processPoll (.httpError 500) (initLoopState "crawling" []) =
        { initLoopState "crawling" [] with
            pollCount := 1
            events := [.errorEv "Failed to get crawl status: 500"] } ∧
      (processPoll (.httpError 500) (initLoopState "crawling" [])).isComplete = false ∧
      (processPoll (.httpError 500) (initLoopState "crawling" [])).consecutiveErrors = 0) := by
  have h1 := claim_C4 (initLoopState "crawling" []) 502 rfl
  have h2 := claim_C4 { initLoopState "crawling" [] with consecutiveErrors := 4 } 502 rfl
  have h3 := claim_C4 (initLoopState "crawling" []) 500 rfl
  refine ⟨?_, ?_, ?_⟩
  · have := h1.1 (by decide) (by decide)
    exact ⟨this.1.trans (by decide), this.2.1, this.2.2.trans (by decide)⟩
  · exact (h2.2.1 (by decide) (by decide)).trans (by decide)
  · have := h3.2.2 (by decide)
    exact ⟨this.1.trans (by decide), this.2.1, this.2.2.trans (by decide)⟩

/-- C7 counterexample: a status stream for a live crawling job fed five
consecutive 502 gateway errors terminates with the gateway-threshold
error event, yet the stored job metadata still has the non-terminal
status crawling — the failure path does not update the job store. -/
theorem claim_C7_counterexample :
    (crawlStatusStream jobMetaC7 [] responsesC7 10).isComplete = true ∧
    (crawlStatusStream jobMetaC7 [] responsesC7 10).events =
      [.errorEv
        "Too many consecutive gateway errors. The service may be temporarily unavailable."] ∧
    (crawlStatusStream jobMetaC7 [] responsesC7 10).stored.status = "crawling" := by
  decide

/-- C7 (amended): when a status stream terminates with an error outcome
(gateway-error threshold, network-error threshold, or through the
polling ceiling and the appended timeout error), the stored job
metadata is NOT updated on that path: every HTTP-error poll, every
network-error poll and the post-loop timeout step leave the stored job
record exactly as it was, so a job that was crawling stays recorded as
crawling; only the completion predicates and an explicit remote failed
status (2xx-poll paths) write a terminal status. -/
theorem claim_C7_amended (st : LoopState) (code : Nat) (msg : String) :
    (processPoll (.httpError code) st).stored = st.stored ∧
    (processPoll (.netError msg) st).stored = st.stored ∧
    (finishStream st).stored = st.stored := by
  refine ⟨?_, ?_, ?_⟩
  · simp only [processPoll]
    split
    · split <;> rfl
    · rfl
  · simp only [processPoll]
    split <;> rfl
  · simp only [finishStream]
    split <;> rfl

/-- C8 counterexample: a cache_hit job whose crawledUrls list contains
a URL that is no longer in the cache emits no url_complete event for
that URL at all — the stream silently skips it — so the claim that one
event is emitted for every URL in crawledUrls fails. -/
theorem claim_C8_counterexample :
    (crawlStatusStream jobMetaC8 cacheC8 responsesC8 10).events =
      [.urlComplete "https://docs.example.com/a" "content-a" true, .complete 2 0] ∧
    ∀ c : String,
      Event.urlComplete "https://docs.example.com/b" c true ∉
        (crawlStatusStream jobMetaC8 cacheC8 responsesC8 10).events := by
  have he : (crawlStatusStream jobMetaC8 cacheC8 responsesC8 10).events =
      [.urlComplete "https://docs.example.com/a" "content-a" true, .complete 2 0] := by
    decide
  refine ⟨he, ?_⟩
  intro c h
  rw [he] at h
  rcases List.mem_cons.mp h with h1 | h1
  · injection h1 with hu _ _
    exact absurd hu (by decide)
  rcases List.mem_cons.mp h1 with h2 | h2
  · exact Event.noConfusion h2
  · cases h2

/-- C8 (amended): for a cache_hit job, the status stream emits, in
order, one url_complete event tagged cached=true carrying the cached
content for every URL in crawledUrls whose cached content is still
present (and truthy), silently skipping the rest, followed by a single
complete event whose creditsUsed is 0 and whose total equals the
number of crawledUrls; the stream performs zero polls of the remote
provider. -/
theorem claim_C8_amended (jm : StreamJobMeta) (cache : List (String × String))
    (responses : Nat → PollResponse) (fuel : Nat) (urls : List String)
    (hst : jm.status = "cache_hit") (hurls : jm.crawledUrls = some urls) :
    (crawlStatusStream jm cache responses fuel).events =
      (urls.filterMap (fun u =>
        if (assocGet cache u).getD "" ≠ "" then
          some (Event.urlComplete u ((assocGet cache u).getD "") true)
        else none)) ++ [Event.complete urls.length 0] ∧
    (crawlStatusStream jm cache responses fuel).pollCount = 0 ∧
    (∀ u ∈ urls, ∀ c : String, assocGet cache u = some c → c ≠ "" →
      Event.urlComplete u c true ∈ (crawlStatusStream jm cache responses fuel).events) := by
  have hstream : crawlStatusStream jm cache responses fuel =
      { initLoopState jm.status cache with
          events := fastPathEvents cache urls
          isComplete := true } := by
    unfold crawlStatusStream
    rw [hurls]
    simp [hst]
  refine ⟨?_, ?_, ?_⟩
  · rw [hstream]
    simp [fastPathEvents]
  · rw [hstream]
    rfl
  · intro u hu c hc hcne
    rw [hstream]
    show Event.urlComplete u c true ∈ fastPathEvents cache urls
    unfold fastPathEvents
    refine List.mem_append_left _ (List.mem_filterMap.mpr ⟨u, hu, ?_⟩)
    simp [hc, hcne]

/-- C8 amended witness: the concrete counterexample job also realises
the amended claim — the event list is exactly the filtered list plus
the final complete event, with zero polls, and the still-cached URL
gets its cached=true event. -/
theorem claim_C8_amended_witness :
    ((crawlStatusStream jobMetaC8 cacheC8 responsesC8 10).events =
      ((["https://docs.example.com/a", "https://docs.example.com/b"] : List String).filterMap
        (fun u =>
          if (assocGet cacheC8 u).getD "" ≠ "" then
            some (Event.urlComplete u ((assocGet cacheC8 u).getD "") true)
          else none)) ++ [Event.complete 2 0] ∧
     (crawlStatusStream jobMetaC8 cacheC8 responsesC8 10).pollCount = 0 ∧
     Event.urlComplete "https://docs.example.com/a" "content-a" true ∈
       (crawlStatusStream jobMetaC8 cacheC8 responsesC8 10).events) := by
  have h := claim_C8_amended jobMetaC8 cacheC8 responsesC8 10
    ["https://docs.example.com/a", "https://docs.example.com/b"] rfl rfl
  exact ⟨h.1, h.2.1,
    h.2.2 "https://docs.example.com/a" (by decide) "content-a" (by decide) (by decide)⟩

/-- C3 counterexample: a live job whose single poll reports completion
with one page whose markdown is below the minimum caching length ends
with a URL manifest write containing that URL, although the URL is not
a cached resource at the time of the write — the write is performed
without verifying the URLs against the cache. -/
theorem claim_C3_counterexample :
    (crawlStatusStream jobMetaC3 [] responsesC3 10).manifestWrite =
      some ["https://docs.example.com/tiny"] ∧
    assocGet (crawlStatusStream jobMetaC3 [] responsesC3 10).cache
      "https://docs.example.com/tiny" = none := by
  decide

/-- C3 (amended): every url in a manifest written by the seed endpoint
was, at the time of the write, verified to be a retrievable cached
resource; the reconciler completion step instead writes exactly the
set of URLs streamed on the connection without re-verifying them
against the cache (each ok-poll step either leaves the manifest write
untouched or writes exactly its streamed-URL set), and error polls
never write a manifest. -/
theorem claim_C3_amended :
    (∀ (cache : List (String × String)) (manifests : List (String × List String))
       (req : SeedRequest) (a b : Nat) (mu : Option (List String))
       (ms : List (String × List String)),
       crawlSeedPOST cache manifests req = (.okResp a b mu, ms) →
       ∃ stored, ms = (req.url, stored) :: manifests ∧
         ∀ u ∈ stored, (assocGet cache u).isSome = true) ∧
    (∀ (st : LoopState) (d : FirecrawlData),
       (processPoll (.ok d) st).manifestWrite = st.manifestWrite ∨
       (processPoll (.ok d) st).manifestWrite =
         some ((processPoll (.ok d) st).sentUrls)) ∧
    (∀ (st : LoopState) (code : Nat) (msg : String),
       (processPoll (.httpError code) st).manifestWrite = st.manifestWrite ∧
       (processPoll (.netError msg) st).manifestWrite = st.manifestWrite) := by
  refine ⟨?_, ?_, ?_⟩
  · intro cache manifests req a b mu ms h
    cases hps : req.pageUrls with
    | none =>
      simp only [crawlSeedPOST, hps] at h
      exact SeedResult.noConfusion (congrArg Prod.fst h)
    | some ps =>
      simp only [crawlSeedPOST, hps] at h
      split at h
      · exact SeedResult.noConfusion (congrArg Prod.fst h)
      split at h
      · exact SeedResult.noConfusion (congrArg Prod.fst h)
      split at h
      · exact SeedResult.noConfusion (congrArg Prod.fst h)
      refine ⟨ps.filter (fun u => (assocGet cache u).isSome),
        (congrArg Prod.snd h).symm, ?_⟩
      intro u hu
      exact (List.mem_filter.mp hu).2
  · intro st d
    simp only [processPoll]
    cases hdp : d.dataPages <;>
      simp only [hdp] <;>
      (repeat' split) <;>
      first
        | (left; rfl)
        | (right; rfl)
  · intro st code msg
    constructor
    · simp only [processPoll]
      split
      · split <;> rfl
      · rfl
    · simp only [processPoll]
      split <;> rfl

/-- C3 amended witness: the seed conjunct at a concrete input — a seed
request storing one verified URL yields a manifest whose single entry
is cache-verified. -/
theorem claim_C3_amended_witness :
    ∃ stored,
      ([("https://docs.example.com/", stored)] :
        List (String × List String)) = [("https://docs.example.com/", stored)] ∧
      ∀ u ∈ stored,
        (assocGet [("https://docs.example.com/a", "content-a")] u).isSome = true := by
  obtain ⟨stored, hms, hver⟩ := claim_C3_amended.1
    [("https://docs.example.com/a", "content-a")] []
    { url := "https://docs.example.com/", urlValid := true,
      pageUrls := some ["https://docs.example.com/a", "https://docs.example.com/b"] }
    1 1 (some ["https://docs.example.com/b"])
    [("https://docs.example.com/", ["https://docs.example.com/a"])]
    (by decide)
  exact ⟨stored, rfl, hver⟩

/-- With zero completed pages, a truthy pending cursor and a
non-completed status, no completion predicate fires while the clock is
within the polling ceiling. -/
theorem completionCheck_false_of_zero (now lpu lcc : Nat) (d : FirecrawlData)
    (hc0 : d.completed = 0) (hn : nextTruthy d.next = true)
    (hs1 : d.status ≠ "completed") (hnow : now ≤ maxPollingTimeMs) :
    completionCheck now lpu lcc d = false := by
  have hmax : ¬ (now > maxPollingTimeMs) := by omega
  simp [completionCheck, hc0, hn, hs1, hmax]

/-- Fields of an ok-poll step that fires no completion predicate and no
failed transition: the stream stays live, the error counter resets, the
progress bookkeeping is untouched, the clock is untouched and the poll
counter advances. -/
theorem processPoll_ok_nofire (st : LoopState) (d : FirecrawlData)
    (hc0 : d.completed = 0) (hn : nextTruthy d.next = true)
    (hs1 : d.status ≠ "completed") (hs2 : d.status ≠ "failed")
    (hlive : st.isComplete = false) (hnow : st.now ≤ maxPollingTimeMs) :
    (processPoll (.ok d) st).isComplete = false ∧
    (processPoll (.ok d) st).consecutiveErrors = 0 ∧
    (processPoll (.ok d) st).lastProgressUpdate = st.lastProgressUpdate ∧
    (processPoll (.ok d) st).lastCompletedCount = st.lastCompletedCount ∧
    (processPoll (.ok d) st).now = st.now ∧
    (processPoll (.ok d) st).pollCount = st.pollCount + 1 := by
  have hcheck := completionCheck_false_of_zero st.now st.lastProgressUpdate
    st.lastCompletedCount d hc0 hn hs1 hnow
  cases hdp : d.dataPages with
  | none => simp [processPoll, hdp, hc0, hcheck, hs2, hlive]
  | some pages => simp [processPoll, hdp, hc0, hcheck, hs2, hlive]

/-- The inter-poll sleep of a live stream with a clean error counter
advances the clock by exactly the poll interval. -/
theorem stepDelay_no_errors (st : LoopState) (h1 : st.isComplete = false)
    (h2 : st.consecutiveErrors = 0) :
    stepDelay st = { st with now := st.now + pollIntervalMs } := by
  simp [stepDelay, h1, h2]

/-- A completed stream is a fixed point of the poll loop. -/
theorem runLoop_of_complete (responses : Nat → PollResponse) (n : Nat)
    (st : LoopState) (h : st.isComplete = true) :
    runLoop responses n st = st := by
  cases n with
  | zero => rfl
  | succ n => rw [runLoop, if_neg]; simp [h]

/-- Fed never-completing responses, the poll loop preserves its
invariant and exits exactly when the virtual clock reaches the polling
ceiling, with the stream still unmarked as complete. -/
theorem timeout_run (responses : Nat → PollResponse)
    (hresp : NeverCompleting responses) :
    ∀ (n : Nat) (st : LoopState), TimeoutInv st →
      maxPollingTimeMs ≤ st.now + pollIntervalMs * n →
      (runLoop responses n st).now = maxPollingTimeMs ∧
      (runLoop responses n st).isComplete = false := by
  intro n
  induction n with
  | zero =>
    intro st hinv hb
    obtain ⟨h1, _, _, _, _, h6⟩ := hinv
    refine ⟨?_, h1⟩
    show st.now = maxPollingTimeMs
    simp only [pollIntervalMs, maxPollingTimeMs] at *
    omega
  | succ n ih =>
    intro st hinv hb
    obtain ⟨h1, h2, h3, h4, h5, h6⟩ := hinv
    by_cases hlt : st.now < maxPollingTimeMs
    · rw [runLoop, if_pos ⟨h1, hlt⟩]
      obtain ⟨d, hd, hc0, hn, hs1c, hs2c⟩ := hresp st.pollCount
      rw [hd]
      obtain ⟨p1, p2, p3, p4, p5, p6⟩ :=
        processPoll_ok_nofire st d hc0 hn hs1c hs2c h1 h6
      rw [stepDelay_no_errors _ p1 p2]
      apply ih
      · refine ⟨p1, p2, ?_, ?_, ?_, ?_⟩
        · show (processPoll (.ok d) st).lastProgressUpdate = 0
          rw [p3, h3]
        · show (processPoll (.ok d) st).lastCompletedCount = 0
          rw [p4, h4]
        · show (processPoll (.ok d) st).now + pollIntervalMs =
            pollIntervalMs * (processPoll (.ok d) st).pollCount
          rw [p5, p6]
          simp only [pollIntervalMs] at *
          omega
        · show (processPoll (.ok d) st).now + pollIntervalMs ≤ maxPollingTimeMs
          rw [p5]
          simp only [pollIntervalMs, maxPollingTimeMs] at *
          omega
      · show maxPollingTimeMs ≤
          (processPoll (.ok d) st).now + pollIntervalMs + pollIntervalMs * n
        rw [p5]
        simp only [pollIntervalMs, maxPollingTimeMs] at *
        omega
    · rw [runLoop, if_neg (fun hcon => hlt hcon.2)]
      refine ⟨?_, h1⟩
      show st.now = maxPollingTimeMs
      omega

/-- C2: for a live job, if every poll response is a successful status
body that never satisfies any completion predicate (zero completed
pages, a truthy pending cursor and a non-terminal status keep every
predicate off on every reachable state), the reconciler exits its loop
with the virtual clock exactly at the configured absolute polling
ceiling of 8 minutes — not later — and the stream terminates by
emitting the client-visible timeout error as its last event. -/
theorem claim_C2 (jm : StreamJobMeta) (cache : List (String × String))
    (responses : Nat → PollResponse) (fuel : Nat)
    (hjm : jm.status ≠ "cache_hit") (hfuel : 240 ≤ fuel)
    (hresp : NeverCompleting responses) :
    (crawlStatusStream jm cache responses fuel).now = maxPollingTimeMs ∧
    (crawlStatusStream jm cache responses fuel).events.getLast? =
      some (.errorEv "Crawl job timed out after 8 minutes") := by
  have hinv : TimeoutInv (initLoopState jm.status cache) := by
    refine ⟨rfl, rfl, rfl, rfl, rfl, ?_⟩
    simp [initLoopState, maxPollingTimeMs]
  have hbound : maxPollingTimeMs ≤
      (initLoopState jm.status cache).now + pollIntervalMs * fuel := by
    simp only [initLoopState, maxPollingTimeMs, pollIntervalMs]
    omega
  obtain ⟨hnow, hic⟩ := timeout_run responses hresp fuel
    (initLoopState jm.status cache) hinv hbound
  have hstream : crawlStatusStream jm cache responses fuel =
      finishStream (runLoop responses fuel (initLoopState jm.status cache)) := by
    unfold crawlStatusStream
    cases jm.crawledUrls
    · rfl
    · simp [hjm]
  rw [hstream]
  rw [finishStream, if_neg (by simp [hic])]
  constructor
  · exact hnow
  · show ((runLoop responses fuel (initLoopState jm.status cache)).events ++
      [Event.errorEv "Crawl job timed out after 8 minutes"]).getLast? = _
    rw [List.getLast?_append_cons]
    rfl

/-- C2 witness: a never-completing constant response (zero completed
pages out of 100, status scraping, a pending cursor) drives a live
crawling job to the timeout error exactly at the 8-minute ceiling. -/
theorem claim_C2_witness :
    (crawlStatusStream jobMetaCrawling [] responsesC2w 240).now = maxPollingTimeMs ∧
    (crawlStatusStream jobMetaCrawling [] responsesC2w 240).events.getLast? =
      some (.errorEv "Crawl job timed out after 8 minutes") :=
  claim_C2 jobMetaCrawling [] responsesC2w 240
    (by decide) (by decide)
    (fun _ => ⟨dataC2w, rfl, rfl, by decide, by decide, by decide⟩)

/-- A live stream that polls at least once ends up in the finish step
applied to the poll loop, never in the fast path. -/
theorem crawlStatusStream_poll (jm : StreamJobMeta)
    (cache : List (String × String)) (responses : Nat → PollResponse)
    (fuel : Nat) (hjm : jm.status ≠ "cache_hit") :
    crawlStatusStream jm cache responses fuel =
      finishStream (runLoop responses fuel (initLoopState jm.status cache)) := by
  unfold crawlStatusStream
  cases jm.crawledUrls
  · rfl
  · simp [hjm]

/-- Before the stall window has elapsed (poll j at time 2000j with
progress last recorded at time 0, j at most 30), no completion
predicate fires for the constant stalled body. -/
theorem stalled_check_false (s : String) (c tt cu j : Nat)
    (hs1 : s ≠ "completed") (hne : c ≠ tt) (hj : j ≤ 30) :
    completionCheck (pollIntervalMs * j) 0 c (constData s c tt cu) = false := by
  have h1 : ¬ (pollIntervalMs * j > maxStallTimeMs) := by
    simp only [pollIntervalMs, maxStallTimeMs]
    omega
  have h2 : ¬ (pollIntervalMs * j > absoluteMaxStallTimeMs) := by
    simp only [pollIntervalMs, absoluteMaxStallTimeMs]
    omega
  have h3 : ¬ (pollIntervalMs * j > maxPollingTimeMs) := by
    simp only [pollIntervalMs, maxPollingTimeMs]
    omega
  simp [completionCheck, constData, nextTruthy, hs1, hne, h1, h2, h3]

/-- At the first poll after the stall window (time 62000 with progress
last recorded at time 0), the stalled-near-complete predicate fires for
a body with a completion fraction of at least 19/20 and no pending
cursor. -/
theorem stalled_check_true (s : String) (c tt cu : Nat)
    (hc : c ≠ 0) (ht : tt ≠ 0) (hr : 20 * c ≥ 19 * tt) :
    completionCheck (pollIntervalMs * 31) 0 c (constData s c tt cu) = true := by
  have h1 : pollIntervalMs * 31 > maxStallTimeMs := by decide
  simp [completionCheck, constData, nextTruthy, hc, ht, hr, h1]

/-- One mid-run poll of the stalled scenario: the loop state advances
from poll j to poll j + 1 (for j at most 30), emitting only the status
and progress events and sleeping one poll interval. -/
theorem stalled_step (s : String) (c tt cu : Nat)
    (cache : List (String × String)) (j : Nat) (evs : List Event)
    (hs1 : s ≠ "completed") (hs2 : s ≠ "failed") (hne : c ≠ tt) (hj : j ≤ 30) :
    stepDelay (processPoll (.ok (constData s c tt cu))
        (stalledMid s c tt cu cache j evs)) =
      stalledMid s c tt cu cache (j + 1)
        (evs ++ [.statusEv s, .progress c tt cu]) := by
  have hcheck := stalled_check_false s c tt cu j hs1 hne hj
  simp only [constData] at hcheck
  simp [processPoll, stalledMid, constData, stepDelay, hcheck, hs2, Nat.mul_succ]

/-- A completed stream is a fixed point of the inter-poll sleep. -/
theorem stepDelay_of_complete (st : LoopState) (h : st.isComplete = true) :
    stepDelay st = st := by
  simp [stepDelay, h]

/-- The poll at time 62000 of the stalled scenario fires the
stalled-near-complete predicate: the stream is marked complete, the
stored job is marked completed, and the complete event is emitted; no
manifest is written because no page URL was ever streamed. -/
theorem stalled_final (s : String) (c tt cu : Nat)
    (cache : List (String × String)) (evs : List Event)
    (hc : c ≠ 0) (ht : tt ≠ 0) (hr : 20 * c ≥ 19 * tt) :
    processPoll (.ok (constData s c tt cu))
        (stalledMid s c tt cu cache 31 evs) =
      { stalledMid s c tt cu cache 31
          (evs ++ [.statusEv s, .progress c tt cu, .complete tt cu]) with
          pollCount := 32
          isComplete := true
          stored := { status := "completed", totalPages := tt, completedPages := c,
                      creditsUsed := cu, lastPageNumber := 0,
                      completedAt := true, failedAt := false } } := by
  have hcheck := stalled_check_true s c tt cu hc ht hr
  simp only [constData] at hcheck
  simp [processPoll, stalledMid, constData, hcheck]

/-- In the stalled scenario the poll loop, started anywhere between the
first poll after progress stopped and the firing poll, runs to the
completion transition at time 62000 — one poll interval after the
60-second stall window elapsed — marking the stored job completed and
emitting the complete event last. -/
theorem stalled_run (s : String) (c tt cu : Nat)
    (cache : List (String × String)) (responses : Nat → PollResponse)
    (hresp : ∀ k, responses k = .ok (constData s c tt cu))
    (hs1 : s ≠ "completed") (hs2 : s ≠ "failed") (hne : c ≠ tt)
    (hc : c ≠ 0) (ht : tt ≠ 0) (hr : 20 * c ≥ 19 * tt) :
    ∀ (n j : Nat) (evs : List Event), 1 ≤ j → j ≤ 31 → 31 - j < n →
      (runLoop responses n (stalledMid s c tt cu cache j evs)).isComplete = true ∧
      (runLoop responses n (stalledMid s c tt cu cache j evs)).now =
        pollIntervalMs * 31 ∧
      (runLoop responses n (stalledMid s c tt cu cache j evs)).stored.status =
        "completed" ∧
      (runLoop responses n (stalledMid s c tt cu cache j evs)).stored.completedAt =
        true ∧
      (runLoop responses n (stalledMid s c tt cu cache j evs)).events.getLast? =
        some (.complete tt cu) := by
  intro n
  induction n with
  | zero =>
    intro j evs hj1 hj31 hn
    omega
  | succ n ih =>
    intro j evs hj1 hj31 hn
    by_cases hj : j = 31
    · subst hj
      have hlt : (stalledMid s c tt cu cache 31 evs).now < maxPollingTimeMs := by
        show pollIntervalMs * 31 < maxPollingTimeMs
        decide
      rw [runLoop, if_pos ⟨rfl, hlt⟩]
      have hpc : (stalledMid s c tt cu cache 31 evs).pollCount = 31 := rfl
      rw [hpc, hresp 31, stalled_final s c tt cu cache evs hc ht hr]
      rw [stepDelay_of_complete _ rfl, runLoop_of_complete _ _ _ rfl]
      refine ⟨rfl, rfl, rfl, rfl, ?_⟩
      show ((evs ++ [Event.statusEv s, Event.progress c tt cu,
        Event.complete tt cu]).getLast? = some (Event.complete tt cu))
      rw [List.getLast?_append_cons]
      rfl
    · have hjle : j ≤ 30 := by omega
      have hlt : (stalledMid s c tt cu cache j evs).now < maxPollingTimeMs := by
        show pollIntervalMs * j < maxPollingTimeMs
        simp only [pollIntervalMs, maxPollingTimeMs]
        omega
      rw [runLoop, if_pos ⟨rfl, hlt⟩]
      have hpc : (stalledMid s c tt cu cache j evs).pollCount = j := rfl
      rw [hpc, hresp j, stalled_step s c tt cu cache j evs hs1 hs2 hne hjle]
      exact ih (j + 1) (evs ++ [.statusEv s, .progress c tt cu])
        (by omega) (by omega) (by omega)

/-- C5: during polling of a live job, when the provider keeps reporting
a completed/total fraction of at least 0.95 (expressed as
20 completed at least 19 total, for example 96 of 100) that no longer
increases, with no next cursor, the reconciler leaves the stall window
unfired for its 60-second duration and then marks the job completed
and emits the complete event at virtual time 62000 — within one poll
interval (2 seconds) after the 60-second stall window elapses. -/
theorem claim_C5 (jm : StreamJobMeta) (cache : List (String × String))
    (responses : Nat → PollResponse) (fuel : Nat) (s : String) (c tt cu : Nat)
    (hjm : jm.status ≠ "cache_hit")
    (hresp : ∀ k, responses k = .ok (constData s c tt cu))
    (hs1 : s ≠ "completed") (hs2 : s ≠ "failed")
    (ht : tt ≠ 0) (hr : 20 * c ≥ 19 * tt) (hne : c ≠ tt)
    (hfuel : 32 ≤ fuel) :
    (crawlStatusStream jm cache responses fuel).isComplete = true ∧
    (crawlStatusStream jm cache responses fuel).now =
      maxStallTimeMs + pollIntervalMs ∧
    (crawlStatusStream jm cache responses fuel).stored.status = "completed" ∧
    (crawlStatusStream jm cache responses fuel).events.getLast? =
      some (.complete tt cu) := by
  have hc : c ≠ 0 := by omega
  have hcpos : 0 < c := Nat.pos_of_ne_zero hc
  rw [crawlStatusStream_poll jm cache responses fuel hjm]
  obtain ⟨n, rfl⟩ : ∃ n, fuel = n + 1 := ⟨fuel - 1, by omega⟩
  have hlt0 : (initLoopState jm.status cache).now < maxPollingTimeMs := by
    show (0 : Nat) < maxPollingTimeMs
    decide
  rw [runLoop, if_pos ⟨rfl, hlt0⟩]
  have hpc : (initLoopState jm.status cache).pollCount = 0 := rfl
  rw [hpc, hresp 0]
  have hcheck0 : completionCheck 0 0 c (constData s c tt cu) = false := by
    have h := stalled_check_false s c tt cu 0 hs1 hne (by omega)
    rwa [Nat.mul_zero] at h
  have hfirst : stepDelay (processPoll (.ok (constData s c tt cu))
      (initLoopState jm.status cache)) =
      stalledMid s c tt cu cache 1 [.statusEv s, .progress c tt cu] := by
    have hcheck0e := hcheck0
    simp only [constData] at hcheck0e
    simp [processPoll, initLoopState, constData, stepDelay, stalledMid,
      hcheck0e, hs2, hc, hcpos]
  rw [hfirst]
  obtain ⟨r1, r2, r3, r4, r5⟩ := stalled_run s c tt cu cache responses hresp
    hs1 hs2 hne hc ht hr n 1 [.statusEv s, .progress c tt cu]
    (by omega) (by omega) (by omega)
  rw [finishStream, if_pos r1]
  exact ⟨r1, by rw [r2]; decide, r3, r5⟩

/-- C5 witness: a crawling job receiving the constant stuck-at-96-of-100
scraping body with no cursor completes at virtual time 62000 with the
complete event last and the stored job marked completed. -/
theorem claim_C5_witness :
    (crawlStatusStream jobMetaCrawling [] responsesC5w 32).isComplete = true ∧
    (crawlStatusStream jobMetaCrawling [] responsesC5w 32).now =
      maxStallTimeMs + pollIntervalMs ∧
    (crawlStatusStream jobMetaCrawling [] responsesC5w 32).stored.status =
      "completed" ∧
    (crawlStatusStream jobMetaCrawling [] responsesC5w 32).events.getLast? =
      some (.complete 100 12) :=
  claim_C5 jobMetaCrawling [] responsesC5w 32 "scraping" 96 100 12
    (by decide) (fun _ => rfl) (by decide) (by decide) (by decide) (by decide)
    (by decide) (by decide)

end LlmCodes
